import Mathlib

/-!
Verification of the PulseVote authentication/authorization core and poll
voting logic, shallowly embedded from the JavaScript source:

  backend/models/User.js        (user schema, incrementLoginAttempts, isLocked)
  backend/routes/authRoutes.js  (generateToken, /register, /login)
  backend/middleware/authMiddleware.js (protect)
  backend/routes/pollRoutes.js  (/:id/vote)
  backend/server.js             (global error handler)

Conventions of the embedding:
 - Timestamps are `Nat` (milliseconds since epoch for user-record logic,
   seconds for JWT expiry, matching `Date.now()` vs `jsonwebtoken` units).
 - The bcrypt primitive is an external collaborator; it is passed in as an
   abstract `compare : String → String → Bool` function (entered plaintext,
   stored hash).
 - JavaScript falsy checks `!username` on request-body strings are modelled
   as equality with the empty string; an absent `lockUntil` is `none`.
 - Fallible store operations are passed in as `Except JsError _` values,
   modelling the resolved/rejected promise the route code awaits.
-/

namespace PulseVote

/-- User roles: the `role` enum of the user schema. -/
inductive Role where
  | user
  | admin
  | moderator
deriving DecidableEq, Repr

/-- A persisted user record, following the schema in backend/models/User.js.
`id` is the Mongo document id; `password` stores the bcrypt hash. -/
structure User where
  id : String
  username : String
  password : String
  email : String
  role : Role
  isActive : Bool
  lastLogin : Option Nat
  loginAttempts : Nat
  lockUntil : Option Nat
  createdAt : Nat
  updatedAt : Nat
deriving DecidableEq, Repr

/-- The `isLocked` virtual of User.js:
`!!(this.lockUntil && this.lockUntil > Date.now())`. -/
def isLocked (u : User) (now : Nat) : Bool :=
  match u.lockUntil with
  | some t => now < t
  | none => false

/-- Two hours in milliseconds: the lock duration `2 * 60 * 60 * 1000`. -/
def lockTimeMs : Nat := 2 * 60 * 60 * 1000

/-- The test `this.lockUntil && this.lockUntil < Date.now()` opening
`incrementLoginAttempts` in User.js. -/
def lockHasExpired (u : User) (now : Nat) : Bool :=
  match u.lockUntil with
  | some t => t < now
  | none => false

/-- `userSchema.methods.incrementLoginAttempts` from User.js, as the state
update its single `updateOne` applies to the record. If a previous lock has
expired (`lockUntil < Date.now()`), restart the counter at 1 and clear the
lock; otherwise increment the counter and, when it reaches 5 on an unlocked
account, set `lockUntil = Date.now() + 2h`. -/
def incrementLoginAttempts (now : Nat) (u : User) : User :=
  if lockHasExpired u now then
    { u with lockUntil := none, loginAttempts := 1 }
  else
    let u2 := { u with loginAttempts := u.loginAttempts + 1 }
    if u.loginAttempts + 1 ≥ 5 ∧ isLocked u now = false then
      { u2 with lockUntil := some (now + lockTimeMs) }
    else
      u2

/-- An HTTP response as the routes produce it: a status code and the
`message` field of the JSON body (empty when the body is a data payload
rather than a message). -/
structure HttpResponse where
  status : Nat
  message : String
deriving DecidableEq, Repr

/-- Result of one POST /api/auth/login request: the HTTP response, the
found user record as persisted after the request (`none` when no user was
found or validation failed first), and whether `matchPassword` (the bcrypt
comparison) was invoked while handling the request. -/
structure LoginStep where
  response : HttpResponse
  userAfter : Option User
  compareInvoked : Bool
deriving DecidableEq, Repr

/-- `User.findOne({ username })`: first stored record with that username. -/
def findByUsername (db : List User) (username : String) : Option User :=
  db.find? (fun u => u.username == username)

/-- The POST /api/auth/login handler of authRoutes.js. Checks, in order:
required fields, user existence, `isActive`, `isLocked`, then the password.
On a match it resets `loginAttempts` to 0, clears `lockUntil` and stamps
`lastLogin`; on a mismatch it applies `incrementLoginAttempts`. -/
def login (compare : String → String → Bool) (now : Nat) (db : List User)
    (username password : String) : LoginStep :=
  if username = "" ∨ password = "" then
    ⟨⟨400, "Username and password are required"⟩, none, false⟩
  else
    match findByUsername db username with
    | none => ⟨⟨401, "Invalid credentials"⟩, none, false⟩
    | some u =>
      if u.isActive = false then
        ⟨⟨401, "Account is deactivated"⟩, some u, false⟩
      else if isLocked u now then
        ⟨⟨423, "Account is temporarily locked due to too many failed attempts"⟩,
          some u, false⟩
      else if compare password u.password then
        ⟨⟨200, ""⟩,
          some { u with loginAttempts := 0, lockUntil := none,
                        lastLogin := some now },
          true⟩
      else
        ⟨⟨401, "Invalid credentials"⟩, some (incrementLoginAttempts now u), true⟩

/-- A JavaScript `Error` as caught by the route `catch` blocks: only its
`message` matters to the embedded handlers. -/
structure JsError where
  message : String
deriving DecidableEq, Repr

/-- The POST /api/auth/login handler of authRoutes.js with its `try/catch`
included: `findResult` is the outcome of the awaited
`User.findOne({ username })`, and a rejected promise lands in the `catch`
block, which responds with `res.status(500).json({ message: err.message })`.
On a resolved lookup the handler proceeds exactly as `login` above. -/
def loginRoute (compare : String → String → Bool) (now : Nat)
    (findResult : Except JsError (Option User))
    (username password : String) : LoginStep :=
  if username = "" ∨ password = "" then
    ⟨⟨400, "Username and password are required"⟩, none, false⟩
  else
    match findResult with
    | .error e => ⟨⟨500, e.message⟩, none, false⟩
    | .ok none => ⟨⟨401, "Invalid credentials"⟩, none, false⟩
    | .ok (some u) =>
      if u.isActive = false then
        ⟨⟨401, "Account is deactivated"⟩, some u, false⟩
      else if isLocked u now then
        ⟨⟨423, "Account is temporarily locked due to too many failed attempts"⟩,
          some u, false⟩
      else if compare password u.password then
        ⟨⟨200, ""⟩,
          some { u with loginAttempts := 0, lockUntil := none,
                        lastLogin := some now },
          true⟩
      else
        ⟨⟨401, "Invalid credentials"⟩, some (incrementLoginAttempts now u), true⟩

/-! ## Token issuer and verifier (jsonwebtoken, as used by the repo) -/

/-- Seven days in seconds: the `expiresIn` of `generateToken`. -/
def tokenLifetimeSec : Nat := 7 * 24 * 60 * 60

/-- A bearer credential as presented to the server. A well-formed JWT
carries the `id` claim, an expiry (seconds since epoch) and the key its
signature was produced with; anything that does not even parse or whose
signature bytes are inconsistent is `garbage`. -/
inductive Jwt where
  | signed (id : String) (exp : Nat) (key : String)
  | garbage
deriving DecidableEq, Repr

/-- `generateToken` of authRoutes.js:
`jwt.sign({ id }, process.env.JWT_SECRET, { expiresIn: '7d' })`. -/
def generateToken (id : String) (secret : String) (nowSec : Nat) : Jwt :=
  .signed id (nowSec + tokenLifetimeSec) secret

/-- Outcome of `jwt.verify`: the decoded payload, or the thrown error
(`TokenExpiredError` vs any other JsonWebTokenError). -/
inductive VerifyResult where
  | valid (id : String)
  | expired
  | malformed
deriving DecidableEq, Repr

/-- `jwt.verify(token, secret)`: the signature is checked before any
embedded claim is trusted; with a good signature, the token is expired
when the current clock has reached `exp`. -/
def verify (t : Jwt) (secret : String) (nowSec : Nat) : VerifyResult :=
  match t with
  | .garbage => .malformed
  | .signed id exp key =>
    if key ≠ secret then .malformed
    else if exp ≤ nowSec then .expired
    else .valid id

/-- Result of the `protect` middleware: either the request proceeds to the
downstream handler carrying the resolved user, or it is rejected with an
HTTP status and message and no user data is passed on. -/
inductive AuthResult where
  | authenticated (u : User)
  | rejected (status : Nat) (message : String)
deriving DecidableEq, Repr

/-- `User.findById(id)`: first stored record with that document id. -/
def findById (db : List User) (id : String) : Option User :=
  db.find? (fun u => u.id == id)

/-- The `protect` middleware of authMiddleware.js. Checks, in order: token
presence, `jwt.verify` (signature then expiry), user lookup, `isActive`,
`isLocked`; only then does `req.user` reach the downstream handler.
`nowSec` and `nowMs` are the same instant in the two units used. -/
def protect (secret : String) (nowSec nowMs : Nat) (db : List User)
    (token : Option Jwt) : AuthResult :=
  match token with
  | none => .rejected 401 "Not authorized, no token"
  | some t =>
    match verify t secret nowSec with
    | .expired => .rejected 401 "Token expired"
    | .malformed => .rejected 401 "Token invalid"
    | .valid id =>
      match findById db id with
      | none => .rejected 401 "User not found"
      | some u =>
        if u.isActive = false then
          .rejected 401 "Account is deactivated"
        else if isLocked u nowMs then
          .rejected 423 "Account is temporarily locked"
        else
          .authenticated u

/-! ## Registration route -/

/-- `User.findOne({ $or: [{ username }, { email }] })`: first stored record
matching either attribute. -/
def findUserOr (db : List User) (username email : String) : Option User :=
  db.find? (fun u => u.username == username || u.email == email)

/-- The POST /api/auth/register handler of authRoutes.js. `findResult` and
`createResult` are the outcomes of the awaited store calls (a rejected
promise lands in the `catch` block, which responds with
`res.status(500).json({ message: err.message })`). On a duplicate it
discloses which attribute collided by comparing the found record's
username with the supplied one. -/
def register (findResult : Except JsError (Option User))
    (createResult : Except JsError User)
    (username password email : String) : HttpResponse :=
  if username = "" ∨ password = "" ∨ email = "" then
    ⟨400, "Username, password, and email are required"⟩
  else if password.length < 6 then
    ⟨400, "Password must be at least 6 characters"⟩
  else
    match findResult with
    | .error e => ⟨500, e.message⟩
    | .ok (some u) =>
      ⟨400, if u.username == username then "Username already exists"
            else "Email already exists"⟩
    | .ok none =>
      match createResult with
      | .error e => ⟨500, e.message⟩
      | .ok _ => ⟨201, ""⟩

/-- The global error handler of server.js: it logs the full error detail
and answers the client with the fixed generic message. Returns the HTTP
response and the message text written to the operational log. -/
def globalErrorHandler (err : JsError) : HttpResponse × String :=
  (⟨500, "Server Error"⟩, err.message)

/-! ## Poll voting route -/

/-- One poll option: display text and vote count (pollSchema `options`). -/
structure PollOption where
  text : String
  votes : Nat
deriving DecidableEq, Repr

/-- A poll document (models/Poll.js). -/
structure Poll where
  question : String
  options : List PollOption
  createdBy : String
deriving DecidableEq, Repr

/-- The request-body `optionIndex` after `typeof optionIndex !== 'number'`
dispatch: either a number (any integer) or some non-numeric value. -/
inductive OptionIndex where
  | num (i : Int)
  | nonNum
deriving DecidableEq, Repr

/-- `poll.options[optionIndex].votes += 1`: bump the vote count of the
option at position `i`, leaving every other entry untouched. -/
def bumpVote (opts : List PollOption) (i : Nat) : List PollOption :=
  match opts, i with
  | [], _ => []
  | o :: rest, 0 => { o with votes := o.votes + 1 } :: rest
  | o :: rest, n + 1 => o :: bumpVote rest n

/-- The POST /api/polls/:id/vote handler of pollRoutes.js. `poll?` is the
result of `Poll.findById`. Returns the HTTP response and the poll document
as persisted afterwards. -/
def vote (poll? : Option Poll) (optionIndex : OptionIndex) :
    HttpResponse × Option Poll :=
  match poll? with
  | none => (⟨404, "Poll not found"⟩, none)
  | some poll =>
    match optionIndex with
    | .nonNum => (⟨400, "Invalid option index"⟩, some poll)
    | .num i =>
      if i < 0 ∨ (poll.options.length : Int) ≤ i then
        (⟨400, "Invalid option index"⟩, some poll)
      else
        (⟨200, ""⟩,
          some { poll with options := bumpVote poll.options i.toNat })

/-! ## Sample data for concrete evaluations -/

/-- Plain string equality standing in for the bcrypt comparison in concrete
evaluations (the abstract `compare` parameter of `login`). -/
def cmpEq : String → String → Bool := fun p h => p == h

/-- A stored user in its initial security state. -/
def sampleUser : User :=
  { id := "u1", username := "alice", password := "hunter22",
    email := "alice@x.com", role := .user, isActive := true,
    lastLogin := none, loginAttempts := 0, lockUntil := none,
    createdAt := 0, updatedAt := 0 }

/-! ## Helper lemmas -/

theorem findByUsername_singleton (u : User) :
    findByUsername [u] u.username = some u := by
  simp [findByUsername, List.find?]

/-- On a resolved store lookup, the try/catch embedding of the login
handler agrees with the pure `login` over the same store contents. -/
theorem loginRoute_ok_eq_login (compare : String → String → Bool)
    (now : Nat) (db : List User) (username password : String) :
    loginRoute compare now (.ok (findByUsername db username))
      username password = login compare now db username password := by
  by_cases hv : username = "" ∨ password = ""
  · simp [loginRoute, login, hv]
  · cases hfind : findByUsername db username with
    | none => simp [loginRoute, login, hv, hfind]
    | some u => simp [loginRoute, login, hv, hfind]

/-- A failed password check on an active, unlocked, present account takes
the `incrementLoginAttempts` branch of the login route. -/
theorem login_failed_step (compare : String → String → Bool) (now : Nat)
    (u : User) (p : String)
    (hu : u.username ≠ "") (hp : p ≠ "")
    (hactive : u.isActive = true) (hnl : isLocked u now = false)
    (hbad : compare p u.password = false) :
    login compare now [u] u.username p =
      ⟨⟨401, "Invalid credentials"⟩, some (incrementLoginAttempts now u), true⟩ := by
  simp [login, findByUsername_singleton, hu, hp, hactive, hnl, hbad]

/-- A login check on an active, present but locked account is answered
with 423 without touching the record or the hasher. -/
theorem login_locked_step (compare : String → String → Bool) (now : Nat)
    (u : User) (p : String)
    (hu : u.username ≠ "") (hp : p ≠ "")
    (hactive : u.isActive = true) (hlock : isLocked u now = true) :
    login compare now [u] u.username p =
      ⟨⟨423, "Account is temporarily locked due to too many failed attempts"⟩,
        some u, false⟩ := by
  simp [login, findByUsername_singleton, hu, hp, hactive, hlock]

/-- A matching password on an active, unlocked, present account takes the
reset branch of the login route. -/
theorem login_success_step (compare : String → String → Bool) (now : Nat)
    (u : User) (p : String)
    (hu : u.username ≠ "") (hp : p ≠ "")
    (hactive : u.isActive = true) (hnl : isLocked u now = false)
    (hmatch : compare p u.password = true) :
    login compare now [u] u.username p =
      ⟨⟨200, ""⟩,
        some { u with loginAttempts := 0, lockUntil := none,
                      lastLogin := some now },
        true⟩ := by
  simp [login, findByUsername_singleton, hu, hp, hactive, hnl, hmatch]

/-- With no lock present, `incrementLoginAttempts` just counts up, locking
when the counter reaches 5. -/
theorem increment_unlocked (now : Nat) (u : User) (hl : u.lockUntil = none) :
    incrementLoginAttempts now u =
      if u.loginAttempts + 1 ≥ 5 then
        { u with loginAttempts := u.loginAttempts + 1,
                 lockUntil := some (now + lockTimeMs) }
      else
        { u with loginAttempts := u.loginAttempts + 1 } := by
  simp [incrementLoginAttempts, lockHasExpired, isLocked, hl]

/-! ## Claims -/

/-- Claim C5: whenever the supplied password matches the stored hash (on an
active, unlocked account, where the comparison is performed), the login
operation resets the failure counter to 0, clears any lock-expiry and
stamps the last-login timestamp, regardless of the counter's prior value. -/
theorem successful_login_resets (compare : String → String → Bool)
    (now : Nat) (u : User) (p : String)
    (hu : u.username ≠ "") (hp : p ≠ "")
    (hactive : u.isActive = true) (hnl : isLocked u now = false)
    (hmatch : compare p u.password = true) :
    (login compare now [u] u.username p).response.status = 200 ∧
    (login compare now [u] u.username p).userAfter =
      some { u with loginAttempts := 0, lockUntil := none,
                    lastLogin := some now } := by
  simp [login, findByUsername_singleton, hu, hp, hactive, hnl, hmatch]

/-- Witness for C5: a concrete successful login resets a counter of 3. -/
theorem successful_login_resets_witness :
    (login cmpEq 9000 [{ sampleUser with loginAttempts := 3 }]
        "alice" "hunter22").response.status = 200 ∧
    (login cmpEq 9000 [{ sampleUser with loginAttempts := 3 }]
        "alice" "hunter22").userAfter =
      some { sampleUser with loginAttempts := 0, lockUntil := none,
                             lastLogin := some 9000 } := by
  exact successful_login_resets cmpEq 9000 { sampleUser with loginAttempts := 3 }
    "hunter22" (by decide) (by decide) (by decide) (by decide) (by decide)

/-- Claim C6: an inactive account gets `Account is deactivated` (401)
before the lock state is consulted, and a locked account gets 423; in both
cases the bcrypt comparison is never invoked. -/
theorem inactive_precedes_locked_no_hash (compare : String → String → Bool)
    (now : Nat) (u : User) (p : String)
    (hu : u.username ≠ "") (hp : p ≠ "") :
    (u.isActive = false →
      login compare now [u] u.username p =
        ⟨⟨401, "Account is deactivated"⟩, some u, false⟩) ∧
    (u.isActive = true → isLocked u now = true →
      login compare now [u] u.username p =
        ⟨⟨423, "Account is temporarily locked due to too many failed attempts"⟩,
          some u, false⟩) := by
  constructor
  · intro hinact
    simp [login, findByUsername_singleton, hu, hp, hinact]
  · intro hact hlock
    simp [login, findByUsername_singleton, hu, hp, hact, hlock]

/-- Witness for C6: concrete inactive and locked accounts. -/
theorem inactive_precedes_locked_no_hash_witness :
    login cmpEq 50 [{ sampleUser with isActive := false,
                                      lockUntil := some 100 }] "alice" "hunter22" =
      ⟨⟨401, "Account is deactivated"⟩,
        some { sampleUser with isActive := false, lockUntil := some 100 },
        false⟩ ∧
    login cmpEq 50 [{ sampleUser with lockUntil := some 100 }]
        "alice" "hunter22" =
      ⟨⟨423, "Account is temporarily locked due to too many failed attempts"⟩,
        some { sampleUser with lockUntil := some 100 }, false⟩ := by
  constructor
  · exact (inactive_precedes_locked_no_hash cmpEq 50
      { sampleUser with isActive := false, lockUntil := some 100 }
      "hunter22" (by decide) (by decide)).1 (by decide)
  · exact (inactive_precedes_locked_no_hash cmpEq 50
      { sampleUser with lockUntil := some 100 }
      "hunter22" (by decide) (by decide)).2 (by decide) (by decide)

/-- Claim C3: the login response is the identical
`401 Invalid credentials` whether the handle matches no stored user or
matches an active, unlocked user whose password comparison fails. -/
theorem invalid_credentials_uniform (compare : String → String → Bool)
    (now : Nat) (db1 db2 : List User) (un1 p1 un2 p2 : String) (u : User)
    (h1u : un1 ≠ "") (h1p : p1 ≠ "") (h2u : un2 ≠ "") (h2p : p2 ≠ "")
    (hnone : findByUsername db1 un1 = none)
    (hsome : findByUsername db2 un2 = some u)
    (hactive : u.isActive = true) (hnl : isLocked u now = false)
    (hbad : compare p2 u.password = false) :
    (login compare now db1 un1 p1).response =
      (login compare now db2 un2 p2).response ∧
    (login compare now db1 un1 p1).response = ⟨401, "Invalid credentials"⟩ := by
  have e1 : (login compare now db1 un1 p1).response = ⟨401, "Invalid credentials"⟩ := by
    simp [login, h1u, h1p, hnone]
  have e2 : (login compare now db2 un2 p2).response = ⟨401, "Invalid credentials"⟩ := by
    simp [login, h2u, h2p, hsome, hactive, hnl, hbad]
  exact ⟨e1.trans e2.symm, e1⟩

/-- Witness for C3: unknown handle vs wrong password on a concrete store. -/
theorem invalid_credentials_uniform_witness :
    (login cmpEq 0 [sampleUser] "mallory" "pw").response =
      (login cmpEq 0 [sampleUser] "alice" "wrongpw").response ∧
    (login cmpEq 0 [sampleUser] "mallory" "pw").response =
      ⟨401, "Invalid credentials"⟩ := by
  exact invalid_credentials_uniform cmpEq 0 [sampleUser] [sampleUser]
    "mallory" "pw" "alice" "wrongpw" sampleUser
    (by decide) (by decide) (by decide) (by decide)
    (by decide) (by decide) (by decide) (by decide) (by decide)

/-- Claim C1: starting from an active account with counter 0 and no lock,
five consecutive failed login checks leave the account locked with
lock-expiry equal to the time of the fifth failure plus 2 hours (after
four failures it is still unlocked), and a sixth attempt with the correct
password before that expiry gets 423 `AccountLocked`. The records
`u1 .. u5` are the persisted states after each failed check. -/
theorem lockout_after_five_failures (compare : String → String → Bool)
    (t1 t2 t3 t4 t5 t6 : Nat) (u0 : User) (p pc : String)
    (hu : u0.username ≠ "") (hp : p ≠ "") (hpc : pc ≠ "")
    (hactive : u0.isActive = true)
    (ha0 : u0.loginAttempts = 0) (hl0 : u0.lockUntil = none)
    (hwrong : compare p u0.password = false)
    (_hright : compare pc u0.password = true)
    (ht6 : t6 < t5 + lockTimeMs)
    (u1 u2 u3 u4 u5 : User)
    (h1 : (login compare t1 [u0] u0.username p).userAfter = some u1)
    (h2 : (login compare t2 [u1] u1.username p).userAfter = some u2)
    (h3 : (login compare t3 [u2] u2.username p).userAfter = some u3)
    (h4 : (login compare t4 [u3] u3.username p).userAfter = some u4)
    (h5 : (login compare t5 [u4] u4.username p).userAfter = some u5) :
    u4.loginAttempts = 4 ∧ u4.lockUntil = none ∧
    u5.loginAttempts = 5 ∧ u5.lockUntil = some (t5 + lockTimeMs) ∧
    (login compare t6 [u5] u5.username pc).response =
      ⟨423, "Account is temporarily locked due to too many failed attempts"⟩ := by
  have step : ∀ (t : Nat) (u v : User) (k : Nat),
      u.username = u0.username → u.password = u0.password →
      u.isActive = true → u.loginAttempts = k → u.lockUntil = none → k + 1 < 5 →
      (login compare t [u] u.username p).userAfter = some v →
      v.username = u0.username ∧ v.password = u0.password ∧
      v.isActive = true ∧ v.loginAttempts = k + 1 ∧ v.lockUntil = none := by
    intro t u v k hun hpw hac hk hl hk5 hstep
    have hnl : isLocked u t = false := by simp [isLocked, hl]
    have hbad : compare p u.password = false := by rw [hpw]; exact hwrong
    rw [login_failed_step compare t u p (hun ▸ hu) hp hac hnl hbad] at hstep
    have hv : v = incrementLoginAttempts t u := by
      exact (Option.some_inj.mp hstep).symm
    rw [increment_unlocked t u hl] at hv
    have hnotfive : ¬ (u.loginAttempts + 1 ≥ 5) := by omega
    rw [if_neg hnotfive] at hv
    subst hv
    simp [hun, hpw, hac, hk, hl]
  obtain ⟨n1, w1, a1, k1, l1⟩ :=
    step t1 u0 u1 0 rfl rfl hactive ha0 hl0 (by omega) h1
  obtain ⟨n2, w2, a2, k2, l2⟩ :=
    step t2 u1 u2 1 n1 w1 a1 k1 l1 (by omega) h2
  obtain ⟨n3, w3, a3, k3, l3⟩ :=
    step t3 u2 u3 2 n2 w2 a2 k2 l2 (by omega) h3
  obtain ⟨n4, w4, a4, k4, l4⟩ :=
    step t4 u3 u4 3 n3 w3 a3 k3 l3 (by omega) h4
  -- the fifth failure locks the account
  have hnl5 : isLocked u4 t5 = false := by simp [isLocked, l4]
  have hbad5 : compare p u4.password = false := by rw [w4]; exact hwrong
  rw [login_failed_step compare t5 u4 p (n4 ▸ hu) hp a4 hnl5 hbad5] at h5
  have hv5 : u5 = incrementLoginAttempts t5 u4 := by
    exact (Option.some_inj.mp h5).symm
  rw [increment_unlocked t5 u4 l4] at hv5
  have hfive : u4.loginAttempts + 1 ≥ 5 := by omega
  rw [if_pos hfive] at hv5
  subst hv5
  refine ⟨k4, l4, by simp [k4], by simp, ?_⟩
  -- the sixth attempt is refused while the lock has not elapsed
  have hlock6 : isLocked { u4 with
      loginAttempts := u4.loginAttempts + 1,
      lockUntil := some (t5 + lockTimeMs) } t6 = true := by
    simp [isLocked, ht6]
  have := login_locked_step compare t6
    { u4 with
      loginAttempts := u4.loginAttempts + 1,
      lockUntil := some (t5 + lockTimeMs) } pc
    (by simpa [n4] using hu) hpc (by simpa using a4) hlock6
  simp [this]

/-- Persisted states of the concrete lockout run used as the C1 witness. -/
def lockedSample (k : Nat) : User := { sampleUser with loginAttempts := k }

/-- The locked state reached by the C1 witness run (fifth failure at
time 5000). -/
def lockedSampleFinal : User :=
  { sampleUser with
    loginAttempts := 5,
    lockUntil := some (5000 + lockTimeMs) }

/-- Witness for C1: a concrete run of five failed checks at times
1000..5000 and a sixth attempt at 6000 with the correct password. -/
theorem lockout_after_five_failures_witness :
    (lockedSample 4).loginAttempts = 4 ∧ (lockedSample 4).lockUntil = none ∧
    lockedSampleFinal.loginAttempts = 5 ∧
    lockedSampleFinal.lockUntil = some (5000 + lockTimeMs) ∧
    (login cmpEq 6000 [lockedSampleFinal] lockedSampleFinal.username
      "hunter22").response =
      ⟨423, "Account is temporarily locked due to too many failed attempts"⟩ := by
  exact lockout_after_five_failures cmpEq 1000 2000 3000 4000 5000 6000
    sampleUser "wrong" "hunter22"
    (by decide) (by decide) (by decide) (by decide) (by decide) (by decide)
    (by decide) (by decide) (by decide)
    (lockedSample 1) (lockedSample 2) (lockedSample 3) (lockedSample 4)
    lockedSampleFinal
    (by decide) (by decide) (by decide) (by decide) (by decide)

/-- Claim C4: once the lock-expiry has passed, the next login check is
evaluated on its own merits: a matching password resets the counter to 0,
a failing one restarts the counter at 1 (not 6) and clears the expiry. -/
theorem expired_lock_fresh_evaluation (compare : String → String → Bool)
    (now t : Nat) (u : User) (p : String)
    (hu : u.username ≠ "") (hp : p ≠ "")
    (hactive : u.isActive = true)
    (hlock : u.lockUntil = some t) (hpast : t < now) :
    (compare p u.password = true →
      (login compare now [u] u.username p).response.status = 200 ∧
      (login compare now [u] u.username p).userAfter =
        some { u with loginAttempts := 0, lockUntil := none,
                      lastLogin := some now }) ∧
    (compare p u.password = false →
      (login compare now [u] u.username p).response.status = 401 ∧
      (login compare now [u] u.username p).userAfter =
        some { u with loginAttempts := 1, lockUntil := none }) := by
  have hnl : isLocked u now = false := by
    simp [isLocked, hlock]
    omega
  constructor
  · intro hmatch
    rw [login_success_step compare now u p hu hp hactive hnl hmatch]
    exact ⟨rfl, rfl⟩
  · intro hbad
    rw [login_failed_step compare now u p hu hp hactive hnl hbad]
    have hexp : lockHasExpired u now = true := by
      simp [lockHasExpired, hlock, hpast]
    simp [incrementLoginAttempts, hexp]

/-- A user whose lock expired at time 100 with the counter at 5, for the
C4 witness. -/
def staleLockedSample : User :=
  { sampleUser with
    loginAttempts := 5,
    lockUntil := some 100 }

/-- Witness for C4: a lock that expired at 100, checked at 200, on a user
whose counter had reached 5. -/
theorem expired_lock_fresh_evaluation_witness :
    cmpEq "nope" staleLockedSample.password = false ∧
    (login cmpEq 200 [staleLockedSample] "alice" "nope").response.status = 401 ∧
    (login cmpEq 200 [staleLockedSample] "alice" "nope").userAfter =
      some { staleLockedSample with loginAttempts := 1, lockUntil := none } := by
  refine ⟨by decide, ?_⟩
  exact (expired_lock_fresh_evaluation cmpEq 200 100 staleLockedSample
    "nope" (by decide) (by decide) (by decide) (by decide) (by decide)).2
    (by decide)

/-- Claim C2: `protect` never yields `authenticated` for a token signed
with a key other than the server secret, for a token past its expiry, or
for a token whose account has `isActive = false`; every such request is
rejected with 401 or 423 and no user reaches the downstream handler. -/
theorem protect_rejects_bad_tokens (secret : String) (nowSec nowMs : Nat)
    (db : List User) (id : String) (exp : Nat) (k : String)
    (h : k ≠ secret ∨ exp ≤ nowSec ∨
      (∃ u, findById db id = some u ∧ u.isActive = false)) :
    (∀ u, protect secret nowSec nowMs db (some (.signed id exp k)) ≠
      .authenticated u) ∧
    (∃ s m, protect secret nowSec nowMs db (some (.signed id exp k)) =
      .rejected s m ∧ (s = 401 ∨ s = 423)) := by
  have hmain : ∃ s m,
      protect secret nowSec nowMs db (some (.signed id exp k)) =
        .rejected s m ∧ (s = 401 ∨ s = 423) := by
    rcases h with hk | hexp | ⟨u, hfind, hinact⟩
    · exact ⟨401, "Token invalid", by simp [protect, verify, hk], Or.inl rfl⟩
    · by_cases hk : k = secret
      · exact ⟨401, "Token expired", by simp [protect, verify, hk, hexp],
          Or.inl rfl⟩
      · exact ⟨401, "Token invalid", by simp [protect, verify, hk], Or.inl rfl⟩
    · by_cases hk : k = secret
      · by_cases hexp : exp ≤ nowSec
        · exact ⟨401, "Token expired", by simp [protect, verify, hk, hexp],
            Or.inl rfl⟩
        · exact ⟨401, "Account is deactivated",
            by simp [protect, verify, hk, hexp, hfind, hinact], Or.inl rfl⟩
      · exact ⟨401, "Token invalid", by simp [protect, verify, hk], Or.inl rfl⟩
  refine ⟨?_, hmain⟩
  obtain ⟨s, m, heq, _⟩ := hmain
  intro u hcontra
  rw [heq] at hcontra
  exact AuthResult.noConfusion hcontra

/-- Witness for C2: a token signed with the wrong key is rejected. -/
theorem protect_rejects_bad_tokens_witness :
    "attacker-key" ≠ "server-secret" ∧
    (∀ u, protect "server-secret" 10 10000 [sampleUser]
      (some (.signed "u1" 999999 "attacker-key")) ≠ .authenticated u) ∧
    (∃ s m, protect "server-secret" 10 10000 [sampleUser]
      (some (.signed "u1" 999999 "attacker-key")) =
        .rejected s m ∧ (s = 401 ∨ s = 423)) := by
  refine ⟨by decide, ?_⟩
  exact protect_rejects_bad_tokens "server-secret" 10 10000 [sampleUser]
    "u1" 999999 "attacker-key" (Or.inl (by decide))

/-- Claim C7: a token issued for user id `U` and presented before its
7-day expiry, under the same signing key, verifies to exactly `U`; through
`protect`, with `U` stored, active and unlocked, the request is
authenticated as that very user. -/
theorem token_roundtrip (secret id : String) (tIss tVer nowMs : Nat)
    (u : User)
    (hid : u.id = id) (hactive : u.isActive = true)
    (hnl : isLocked u nowMs = false)
    (hfresh : tVer < tIss + tokenLifetimeSec) :
    verify (generateToken id secret tIss) secret tVer = .valid id ∧
    protect secret tVer nowMs [u] (some (generateToken id secret tIss)) =
      .authenticated u := by
  have hver : verify (generateToken id secret tIss) secret tVer = .valid id := by
    simp [verify, generateToken]
    omega
  refine ⟨hver, ?_⟩
  simp [protect, hver, findById, List.find?, hid, hactive, hnl]

/-- Witness for C7: issue at time 0, verify at day 6. -/
theorem token_roundtrip_witness :
    518400 < 0 + tokenLifetimeSec ∧
    verify (generateToken "u1" "server-secret" 0) "server-secret" 518400 =
      .valid "u1" ∧
    protect "server-secret" 518400 518400000 [sampleUser]
      (some (generateToken "u1" "server-secret" 0)) =
      .authenticated sampleUser := by
  refine ⟨by decide, ?_⟩
  exact token_roundtrip "server-secret" "u1" 0 518400 518400000 sampleUser
    (by decide) (by decide) (by decide) (by decide)

theorem bumpVote_length (opts : List PollOption) :
    ∀ i, (bumpVote opts i).length = opts.length := by
  induction opts with
  | nil => intro i; cases i <;> rfl
  | cons o rest ih =>
    intro i
    cases i with
    | zero => simp [bumpVote]
    | succ n => simp [bumpVote, ih n]

theorem bumpVote_getElem_ne (opts : List PollOption) :
    ∀ i j : Nat, j ≠ i → (bumpVote opts i)[j]? = opts[j]? := by
  induction opts with
  | nil => intro i j _; cases i <;> rfl
  | cons o rest ih =>
    intro i j hne
    cases i with
    | zero =>
      cases j with
      | zero => exact absurd rfl hne
      | succ m => simp [bumpVote]
    | succ n =>
      cases j with
      | zero => simp [bumpVote]
      | succ m =>
        simpa [bumpVote] using ih n m (by omega)

theorem bumpVote_getElem_self (opts : List PollOption) :
    ∀ (i : Nat) (o : PollOption), opts[i]? = some o →
      (bumpVote opts i)[i]? = some { o with votes := o.votes + 1 } := by
  induction opts with
  | nil => intro i o h; simp at h
  | cons a rest ih =>
    intro i o h
    cases i with
    | zero =>
      simp at h
      subst h
      simp [bumpVote]
    | succ n =>
      simp at h
      simpa [bumpVote] using ih n o h

/-- Claim C8: a vote request with a non-numeric, negative or too-large
option index gets `400 Invalid option index` and leaves the poll
unchanged; a vote at a valid index increments exactly that option's count
by 1 and preserves its text, every other option, the question and the
creator. -/
theorem vote_frame (poll : Poll) :
    vote (some poll) .nonNum = (⟨400, "Invalid option index"⟩, some poll) ∧
    (∀ i : Int, (i < 0 ∨ (poll.options.length : Int) ≤ i) →
      vote (some poll) (.num i) = (⟨400, "Invalid option index"⟩, some poll)) ∧
    (∀ i : Nat, i < poll.options.length →
      ∃ q o, vote (some poll) (.num i) = (⟨200, ""⟩, some q) ∧
        poll.options[i]? = some o ∧
        q.question = poll.question ∧
        q.createdBy = poll.createdBy ∧
        q.options.length = poll.options.length ∧
        q.options[i]? = some { o with votes := o.votes + 1 } ∧
        (∀ j : Nat, j ≠ i → q.options[j]? = poll.options[j]?)) := by
  refine ⟨rfl, ?_, ?_⟩
  · intro i hi
    simp only [vote, if_pos hi]
  · intro i hi
    have hcond : ¬((i : Int) < 0 ∨ (poll.options.length : Int) ≤ (i : Int)) := by
      omega
    obtain ⟨o, ho⟩ : ∃ o, poll.options[i]? = some o := by
      rw [List.getElem?_eq_getElem hi]
      exact ⟨_, rfl⟩
    refine ⟨{ poll with options := bumpVote poll.options i }, o, ?_, ho, rfl,
      rfl, bumpVote_length poll.options i,
      bumpVote_getElem_self poll.options i o ho,
      fun j hj => bumpVote_getElem_ne poll.options i j hj⟩
    simp [vote, hcond]
    exact hi

/-- A concrete two-option poll. -/
def samplePoll : Poll :=
  { question := "Tabs or spaces?",
    options := [⟨"tabs", 3⟩, ⟨"spaces", 4⟩],
    createdBy := "u1" }

/-- Witness for C8: voting at index 5 of a two-option poll is refused and
changes nothing; voting at index 0 bumps exactly that count. -/
theorem vote_frame_witness :
    vote (some samplePoll) (.num 5) =
      (⟨400, "Invalid option index"⟩, some samplePoll) ∧
    (0 : Nat) < samplePoll.options.length ∧
    (∃ q o, vote (some samplePoll) (.num 0) = (⟨200, ""⟩, some q) ∧
      samplePoll.options[0]? = some o ∧
      q.question = samplePoll.question ∧
      q.createdBy = samplePoll.createdBy ∧
      q.options.length = samplePoll.options.length ∧
      q.options[0]? = some { o with votes := o.votes + 1 } ∧
      (∀ j : Nat, j ≠ 0 → q.options[j]? = samplePoll.options[j]?)) := by
  refine ⟨(vote_frame samplePoll).2.1 5 (by decide), by decide,
    (vote_frame samplePoll).2.2 0 (by decide)⟩

/-- Counterexample for C9: a register request hitting a store failure does
not get an opaque message — the underlying error's own message text is
sent to the client verbatim by the route-level catch handler. -/
theorem error_message_leak_counterexample :
    register
      (.error ⟨"MongoNetworkError: connect ECONNREFUSED 10.0.0.7:27017"⟩)
      (.ok sampleUser) "alice" "Secret1" "alice@x.com" =
      ⟨500, "MongoNetworkError: connect ECONNREFUSED 10.0.0.7:27017"⟩ ∧
    "MongoNetworkError: connect ECONNREFUSED 10.0.0.7:27017" ≠
      "Server Error" := by
  exact ⟨by decide, by decide⟩

/-- Amended C9: only errors that reach the global Express error handler
are answered with the fixed opaque `Server Error` message (full detail
going to the log); the register and login route handlers catch their own
store failures and return HTTP 500 whose body message is the underlying
error's own message text, which therefore does leave the process. -/
theorem error_opacity_amended (e : JsError) (cr : Except JsError User)
    (compare : String → String → Bool) (now : Nat)
    (un pw em lun lpw : String)
    (hun : un ≠ "") (hpw : pw ≠ "") (hem : em ≠ "")
    (hlen : 6 ≤ pw.length)
    (hlun : lun ≠ "") (hlpw : lpw ≠ "") :
    globalErrorHandler e = (⟨500, "Server Error"⟩, e.message) ∧
    register (.error e) cr un pw em = ⟨500, e.message⟩ ∧
    loginRoute compare now (.error e) lun lpw =
      ⟨⟨500, e.message⟩, none, false⟩ := by
  have h6 : ¬ pw.length < 6 := by omega
  exact ⟨rfl, by simp [register, hun, hpw, hem, h6],
    by simp [loginRoute, hlun, hlpw]⟩

/-- Witness for amended C9: a concrete store failure during register and
during login, next to the global handler's fixed answer. -/
theorem error_opacity_amended_witness :
    globalErrorHandler ⟨"boom"⟩ = (⟨500, "Server Error"⟩, "boom") ∧
    register (.error ⟨"boom"⟩) (.ok sampleUser) "alice" "Secret1"
      "alice@x.com" = ⟨500, "boom"⟩ ∧
    loginRoute cmpEq 0 (.error ⟨"boom"⟩) "alice" "hunter22" =
      ⟨⟨500, "boom"⟩, none, false⟩ := by
  exact error_opacity_amended ⟨"boom"⟩ (.ok sampleUser) cmpEq 0
    "alice" "Secret1" "alice@x.com" "alice" "hunter22"
    (by decide) (by decide) (by decide) (by decide) (by decide) (by decide)

/-- A stored user holding the email the C10 counterexample registers. -/
def userEve : User :=
  { id := "u2", username := "eve", password := "h2",
    email := "shared@x.com", role := .user, isActive := true,
    lastLogin := none, loginAttempts := 0, lockUntil := none,
    createdAt := 0, updatedAt := 0 }

/-- A stored user holding the username the C10 counterexample registers. -/
def userCarol : User :=
  { id := "u3", username := "carol", password := "h3",
    email := "carol@x.com", role := .user, isActive := true,
    lastLogin := none, loginAttempts := 0, lockUntil := none,
    createdAt := 0, updatedAt := 0 }

/-- Counterexample for C10: with the requested username taken by one
stored record and the requested email by an earlier one, the store's
`$or` lookup returns the email-matching record first and the route says
`Email already exists`, although the username does match an existing
record — so the message is not always `Username already exists` in that
case. -/
theorem register_collision_counterexample :
    userCarol ∈ [userEve, userCarol] ∧ userCarol.username = "carol" ∧
    register (.ok (findUserOr [userEve, userCarol] "carol" "shared@x.com"))
      (.ok sampleUser) "carol" "Secret1" "shared@x.com" =
      ⟨400, "Email already exists"⟩ := by
  exact ⟨by simp, rfl, by decide⟩

/-- Amended C10: the duplicate message is chosen by comparing the single
record the store's `$or` lookup returns against the supplied username:
`Username already exists` when that record's username matches, otherwise
`Email already exists`. When only one attribute collides this discloses
exactly which one, so registration still lets an unauthenticated caller
test whether a username or email is registered; but when username and
email collide on different records the reported attribute follows the
record found first. -/
theorem register_collision_message (db : List User)
    (cr : Except JsError User) (un pw em : String) (u : User)
    (hun : un ≠ "") (hpw : pw ≠ "") (hem : em ≠ "")
    (hlen : 6 ≤ pw.length)
    (hfound : findUserOr db un em = some u) :
    (register (.ok (findUserOr db un em)) cr un pw em).status = 400 ∧
    (u.username = un →
      register (.ok (findUserOr db un em)) cr un pw em =
        ⟨400, "Username already exists"⟩) ∧
    (u.username ≠ un →
      register (.ok (findUserOr db un em)) cr un pw em =
        ⟨400, "Email already exists"⟩) ∧
    ((∀ v ∈ db, v.username ≠ un) →
      register (.ok (findUserOr db un em)) cr un pw em =
        ⟨400, "Email already exists"⟩) ∧
    ((∀ v ∈ db, v.email ≠ em) →
      register (.ok (findUserOr db un em)) cr un pw em =
        ⟨400, "Username already exists"⟩) := by
  have h6 : ¬ pw.length < 6 := by omega
  have hreg : register (.ok (findUserOr db un em)) cr un pw em =
      ⟨400, if u.username == un then "Username already exists"
            else "Email already exists"⟩ := by
    simp [register, hun, hpw, hem, h6, hfound]
  have hfind : List.find? (fun v => v.username == un || v.email == em) db =
      some u := hfound
  have hmem : u ∈ db := List.mem_of_find?_eq_some hfind
  have hpred := List.find?_some hfind
  have hbranch_yes : u.username = un →
      register (.ok (findUserOr db un em)) cr un pw em =
        ⟨400, "Username already exists"⟩ := by
    intro h
    rw [hreg]
    simp [h]
  have hbranch_no : u.username ≠ un →
      register (.ok (findUserOr db un em)) cr un pw em =
        ⟨400, "Email already exists"⟩ := by
    intro h
    rw [hreg]
    simp [h]
  refine ⟨by rw [hreg], hbranch_yes, hbranch_no, ?_, ?_⟩
  · intro hall
    exact hbranch_no (hall u hmem)
  · intro hall
    have : u.username = un ∨ u.email = em := by
      simpa using hpred
    rcases this with h | h
    · exact hbranch_yes h
    · exact absurd h (hall u hmem)

/-- Witness for amended C10: a username-only collision reports
`Username already exists`. -/
theorem register_collision_message_witness :
    findUserOr [sampleUser] "alice" "new@x.com" = some sampleUser ∧
    register (.ok (findUserOr [sampleUser] "alice" "new@x.com"))
      (.ok sampleUser) "alice" "Secret1" "new@x.com" =
      ⟨400, "Username already exists"⟩ := by
  refine ⟨by decide, ?_⟩
  exact (register_collision_message [sampleUser] (.ok sampleUser)
    "alice" "Secret1" "new@x.com" sampleUser
    (by decide) (by decide) (by decide) (by decide) (by decide)).2.1
    (by decide)

end PulseVote
